import Mathlib

/-!
Verification of the PRC_API HTTP client (src/APIs/PRC_API.py) against its
natural-language specification.

The Python module is shallowly embedded: JSON values are an inductive type,
Python objects built by `BaseModel.__init__` become attribute association
lists, the module-level `server_keys` dict becomes explicit state threaded
through the operations, the external key store (`bot.erlc_keys`) and the
network (`aiohttp` session) become oracles passed as functions, and raised
exceptions become `Except` errors.  Effects the claims talk about (external
key-store lookups, HTTP requests issued) are returned alongside the result
so theorems can count them.
-/

/-- Decoded JSON values, as returned by `resp.json()`. -/
inductive JSON where
  | null : JSON
  | bool : Bool → JSON
  | num : Int → JSON
  | str : String → JSON
  | arr : List JSON → JSON
  | obj : List (String × JSON) → JSON
deriving Repr

/-- The field list of a JSON object (empty for non-objects). -/
def JSON.objFields : JSON → List (String × JSON)
  | .obj fs => fs
  | _ => []

/-- `True` exactly on JSON objects. -/
def JSON.isObj : JSON → Bool
  | .obj _ => true
  | _ => false

/-- Association-list lookup for string-keyed attribute lists. -/
def lookupStr : List (String × JSON) → String → Option JSON
  | [], _ => none
  | (k0, v0) :: rest, k => if k0 = k then some v0 else lookupStr rest k

/-- Python `setattr` on an attribute list: overwrite the binding if the
name is present, otherwise append it. -/
def setattr1 : List (String × JSON) → String → JSON → List (String × JSON)
  | [], k, v => [(k, v)]
  | (k0, v0) :: rest, k, v =>
      if k0 = k then (k0, v) :: rest else (k0, v0) :: setattr1 rest k v

/-- `for key, value in kwargs.items(): setattr(self, key, value)`. -/
def setattrs (init : List (String × JSON)) (kwargs : List (String × JSON)) :
    List (String × JSON) :=
  kwargs.foldl (fun acc kv => setattr1 acc kv.1 kv.2) init

/-- A constructed Python object: the class-level attribute defaults
(class variables with `= value`; bare annotations contribute nothing)
together with the instance attributes set on it. -/
structure PyObject where
  cls : List (String × JSON)
  attrs : List (String × JSON)
deriving Repr

namespace BaseModel

/-- `BaseModel.__init__(self, *args, **kwargs)`: every keyword argument is
set as an instance attribute; nothing else happens. -/
def init (cls : List (String × JSON)) (kwargs : List (String × JSON)) : PyObject :=
  { cls := cls, attrs := setattrs [] kwargs }

end BaseModel

/-- Python attribute lookup: instance attributes first, then the class
attributes (bare annotations create no class attribute). -/
def PyObject.getattr (o : PyObject) (k : String) : Option JSON :=
  match lookupStr o.attrs k with
  | some v => some v
  | none => lookupStr o.cls k

/-- Class-level defaults of `ServerStatus` (every field has `= value`). -/
def ServerStatus.cls : List (String × JSON) :=
  [("Name", JSON.null), ("OwnerId", JSON.null), ("CoOwnerIds", JSON.null),
   ("CurrentPlayers", JSON.null), ("MaxPlayers", JSON.null),
   ("JoinKey", JSON.null), ("AccVerifiedReq", JSON.str ""),
   ("TeamBalance", JSON.bool false)]

/-- `ServerPlayers` declares only bare annotations: no class defaults. -/
def ServerPlayers.cls : List (String × JSON) := []

/-- `ServerJoinLogs` declares only bare annotations: no class defaults. -/
def ServerJoinLogs.cls : List (String × JSON) := []

/-- `ServerQueue` declares only the bare annotation `total_players: int`. -/
def ServerQueue.cls : List (String × JSON) := []

/-- `ServerCommand` declares only a bare annotation: no class defaults. -/
def ServerCommand.cls : List (String × JSON) := []

/-- The `ResponseFailed` exception object.  `dataArg`, `detailArg` and
`codeArg` record the arguments the constructor was called with at the
raise site; `attrs` records the instance attributes `__init__` actually
set, which per the source is one `setattr` per entry of `**kwargs` only —
the named parameters `data`, `detail`, `code` are never stored. -/
structure ResponseFailed where
  dataArg : JSON
  detailArg : Option String
  codeArg : Option Nat
  attrs : List (String × JSON)
deriving Repr

namespace ResponseFailed

/-- `ResponseFailed.__init__(self, data, detail=None, code=None, *args,
**kwargs)`: the body iterates `kwargs.items()` only, so only keyword
arguments that do not match a named parameter become attributes. -/
def init (data : JSON) (detail : Option String) (code : Option Nat)
    (kwargs : List (String × JSON)) : ResponseFailed :=
  { dataArg := data, detailArg := detail, codeArg := code,
    attrs := setattrs [] kwargs }

/-- Attribute lookup on the exception object.  The class body of
`ResponseFailed` holds bare annotations only (`detail: str | None` etc.),
which create no class attributes, so only instance attributes resolve. -/
def getattr (e : ResponseFailed) (k : String) : Option JSON :=
  lookupStr e.attrs k

end ResponseFailed

/-- The errors the client raises. -/
inductive PyErr where
  | serverLinkNotFound : String → PyErr
  | responseFailed : ResponseFailed → PyErr
  | typeError : String → PyErr
deriving Repr

/-- The external key store `bot.erlc_keys`, abstracted as a lookup from
server id to the `"key"` field of the stored document (`none` when
`find_one({"_id": server_id})` returns no document). -/
def KeyStore : Type := Int → Option String

/-- Lookup in the module-level `server_keys` dict. -/
def dictGet : List (Int × String) → Int → Option String
  | [], _ => none
  | (k0, v0) :: rest, k => if k0 = k then some v0 else dictGet rest k

/-- Assignment `server_keys[server_id] = key`. -/
def dictSet : List (Int × String) → Int → String → List (Int × String)
  | [], k, v => [(k, v)]
  | (k0, v0) :: rest, k, v =>
      if k0 = k then (k0, v) :: rest else (k0, v0) :: dictSet rest k v

/-- Result of one call to `fetch_server_key`: the value returned or the
exception raised, the `server_keys` dict afterwards, and how many external
key-store queries (`find_one`) the call performed. -/
structure KeyResult where
  result : Except PyErr String
  server_keys : List (Int × String)
  externalLookups : Nat
deriving Repr

/-- `PRC_API.fetch_server_key`: if `server_id` is not in `server_keys`,
query the store; raise `ServerLinkNotFound("API Key not found")` when
absent, otherwise insert the key; finally return `server_keys[server_id]`
(for a hit, the cached key; after an insert, the freshly stored key). -/
def fetch_server_key (store : KeyStore) (server_keys : List (Int × String))
    (server_id : Int) : KeyResult :=
  match dictGet server_keys server_id with
  | some k => { result := Except.ok k, server_keys := server_keys, externalLookups := 0 }
  | none =>
      match store server_id with
      | none =>
          { result := Except.error (PyErr.serverLinkNotFound "API Key not found"),
            server_keys := server_keys, externalLookups := 1 }
      | some key =>
          { result := Except.ok key,
            server_keys := dictSet server_keys server_id key,
            externalLookups := 1 }

/-- One HTTP request as issued by `self.session.request`: method, full URL,
the `Server-Key` header value, and the optional `json=` body. -/
structure HTTPRequest where
  method : String
  url : String
  serverKey : String
  jsonBody : Option JSON
deriving Repr

/-- An HTTP response: its status and the JSON-decoded body (`resp.json()`;
the upstream returns a JSON envelope on every status). -/
structure HTTPResponse where
  status : Nat
  body : JSON
deriving Repr

/-- The network, abstracted as a function from request to response. -/
def HTTPOracle : Type := HTTPRequest → HTTPResponse

/-- The `error_map` dict literal of `_send_request`, as `dict.get`. -/
def error_map (status : Nat) : Option String :=
  if status = 429 then some "Rate limited"
  else if status = 400 then some "Bad Request"
  else if status = 403 then some "Unauthorized"
  else if status = 422 then some "The private server has no players in it"
  else if status = 500 then some "Problem communicating with Roblox"
  else none

/-- Result of one `_send_request`: the JSON returned or the exception
raised, the `server_keys` dict afterwards, the number of external
key-store lookups, and the HTTP requests actually issued. -/
structure SendResult where
  result : Except PyErr JSON
  server_keys : List (Int × String)
  externalLookups : Nat
  httpCalls : List HTTPRequest
deriving Repr

/-- `PRC_API._send_request`: resolve the key (propagating
`ServerLinkNotFound` before any HTTP activity), issue the request to
`base_url/endpoint` with the `Server-Key` header, decode the body, return
it on status 200, and otherwise raise
`ResponseFailed(data, detail=error_map.get(status, "Unexpected Error"),
code=status)` — whose `__init__` stores neither named argument. -/
def _send_request (http : HTTPOracle) (store : KeyStore) (base_url : String)
    (server_keys : List (Int × String)) (method endpoint : String)
    (server_id : Int) (jsonBody : Option JSON) : SendResult :=
  let kr := fetch_server_key store server_keys server_id
  match kr.result with
  | Except.error e =>
      { result := Except.error e, server_keys := kr.server_keys,
        externalLookups := kr.externalLookups, httpCalls := [] }
  | Except.ok key =>
      let req : HTTPRequest :=
        { method := method, url := base_url ++ "/" ++ endpoint,
          serverKey := key, jsonBody := jsonBody }
      let resp := http req
      if resp.status = 200 then
        { result := Except.ok resp.body, server_keys := kr.server_keys,
          externalLookups := kr.externalLookups, httpCalls := [req] }
      else
        { result := Except.error (PyErr.responseFailed
            (ResponseFailed.init resp.body
              (some ((error_map resp.status).getD "Unexpected Error"))
              (some resp.status) [])),
          server_keys := kr.server_keys,
          externalLookups := kr.externalLookups, httpCalls := [req] }

/-- What `_fetch_data` returns: a list of records when the decoded JSON
was a Python list, a single record otherwise. -/
inductive Fetched where
  | single : PyObject → Fetched
  | many : List PyObject → Fetched
deriving Repr

/-- `model_class(**item)`: `**`-expansion requires a mapping, so a
non-object raises a `TypeError`; an object feeds its fields as keyword
arguments into `BaseModel.__init__`. -/
def construct (cls : List (String × JSON)) (v : JSON) : Except PyErr PyObject :=
  match v with
  | JSON.obj fields => Except.ok (BaseModel.init cls fields)
  | _ => Except.error (PyErr.typeError "argument after ** must be a mapping")

/-- `[model_class(**item) for item in data]`, left to right; the first
element that raises aborts the comprehension. -/
def constructList (cls : List (String × JSON)) :
    List JSON → Except PyErr (List PyObject)
  | [] => Except.ok []
  | v :: rest =>
      match construct cls v with
      | Except.error e => Except.error e
      | Except.ok o =>
          match constructList cls rest with
          | Except.error e => Except.error e
          | Except.ok os => Except.ok (o :: os)

/-- Result of one `_fetch_data` call. -/
structure FetchResult where
  result : Except PyErr Fetched
  server_keys : List (Int × String)
  externalLookups : Nat
  httpCalls : List HTTPRequest
deriving Repr

/-- `PRC_API._fetch_data`: GET the endpoint; on success, build one record
per element if the JSON is a list, else a single record. -/
def _fetch_data (http : HTTPOracle) (store : KeyStore) (base_url : String)
    (server_keys : List (Int × String)) (endpoint : String) (server_id : Int)
    (cls : List (String × JSON)) : FetchResult :=
  let sr := _send_request http store base_url server_keys "GET" endpoint server_id none
  match sr.result with
  | Except.error e =>
      { result := Except.error e, server_keys := sr.server_keys,
        externalLookups := sr.externalLookups, httpCalls := sr.httpCalls }
  | Except.ok data =>
      match data with
      | JSON.arr items =>
          { result := (constructList cls items).map Fetched.many,
            server_keys := sr.server_keys,
            externalLookups := sr.externalLookups, httpCalls := sr.httpCalls }
      | other =>
          { result := (construct cls other).map Fetched.single,
            server_keys := sr.server_keys,
            externalLookups := sr.externalLookups, httpCalls := sr.httpCalls }

/-- `PRC_API._fetch_server_status`. -/
def _fetch_server_status (http : HTTPOracle) (store : KeyStore)
    (base_url : String) (server_keys : List (Int × String)) (server_id : Int) :
    FetchResult :=
  _fetch_data http store base_url server_keys "server" server_id ServerStatus.cls

/-- `PRC_API._fetch_server_players`. -/
def _fetch_server_players (http : HTTPOracle) (store : KeyStore)
    (base_url : String) (server_keys : List (Int × String)) (server_id : Int) :
    FetchResult :=
  _fetch_data http store base_url server_keys "server/players" server_id ServerPlayers.cls

/-- `PRC_API._fetch_server_join_logs`. -/
def _fetch_server_join_logs (http : HTTPOracle) (store : KeyStore)
    (base_url : String) (server_keys : List (Int × String)) (server_id : Int) :
    FetchResult :=
  _fetch_data http store base_url server_keys "server/joinlogs" server_id ServerJoinLogs.cls

/-- `PRC_API._fetch_server_queue`. -/
def _fetch_server_queue (http : HTTPOracle) (store : KeyStore)
    (base_url : String) (server_keys : List (Int × String)) (server_id : Int) :
    FetchResult :=
  _fetch_data http store base_url server_keys "server/queue" server_id ServerQueue.cls

/-- `PRC_API._send_message_command`: POST `server/command` with body
`{"command": ":m " + command}` and hand back the raw `_send_request`
result; no typed record is constructed. -/
def _send_message_command (http : HTTPOracle) (store : KeyStore)
    (base_url : String) (server_keys : List (Int × String)) (server_id : Int)
    (command : String) : SendResult :=
  _send_request http store base_url server_keys "POST" "server/command" server_id
    (some (JSON.obj [("command", JSON.str (":m " ++ command))]))

/-- The dict assembled by `fetch_all_server_data` on success. -/
structure AllServerData where
  status : Fetched
  players : Fetched
  join_logs : Fetched
  queue : Fetched
deriving Repr

/-- The first error among `rs`, scanned in task-completion order
(`order` lists positions; a position out of range contributes nothing).
This is what `asyncio.gather` without `return_exceptions` raises: the
exception of the earliest-failing task. -/
def firstErrorIn (rs : List (Except PyErr Fetched)) : List Nat → Option PyErr
  | [] => none
  | i :: rest =>
      match rs[i]? with
      | some (Except.error e) => some e
      | _ => firstErrorIn rs rest

/-- `PRC_API.fetch_all_server_data`: run the four sub-fetches
concurrently via `asyncio.gather` and assemble the result dict in
argument order.  `order` is the nondeterministic completion order of the
four tasks; `gather` awaits them all, so when every task completed and
none failed the results are returned in argument order, and otherwise the
earliest failure in completion order is raised.  (The sub-fetches share
`server_keys`; interleaving affects only lookup counts, never the key
value, so each result is computed from the initial dict.)  The final
branch is unreachable whenever `order` covers all four tasks. -/
def fetch_all_server_data (http : HTTPOracle) (store : KeyStore)
    (base_url : String) (server_keys : List (Int × String)) (server_id : Int)
    (order : List Nat) : Except PyErr AllServerData :=
  let r0 := (_fetch_server_status http store base_url server_keys server_id).result
  let r1 := (_fetch_server_players http store base_url server_keys server_id).result
  let r2 := (_fetch_server_join_logs http store base_url server_keys server_id).result
  let r3 := (_fetch_server_queue http store base_url server_keys server_id).result
  match firstErrorIn [r0, r1, r2, r3] order with
  | some e => Except.error e
  | none =>
      match r0, r1, r2, r3 with
      | Except.ok a, Except.ok b, Except.ok c, Except.ok d =>
          Except.ok { status := a, players := b, join_logs := c, queue := d }
      | _, _, _, _ =>
          Except.error (PyErr.typeError "unreachable when order covers all tasks")

/-- Run a sequence of `fetch_server_key` calls (the only operations that
touch the module-level `server_keys` dict), threading the dict through. -/
def runResolveOps (store : KeyStore) (sk : List (Int × String)) :
    List Int → List (Int × String)
  | [] => sk
  | op :: rest => runResolveOps store (fetch_server_key store sk op).server_keys rest

/-- Total number of external key-store lookups performed for `sid` while
running a sequence of `fetch_server_key` calls. -/
def lookupCount (store : KeyStore) (sk : List (Int × String))
    (ops : List Int) (sid : Int) : Nat :=
  match ops with
  | [] => 0
  | op :: rest =>
      (if op = sid then (fetch_server_key store sk op).externalLookups else 0) +
        lookupCount store (fetch_server_key store sk op).server_keys rest sid

/-- Network oracle answering every request with status 429 and body `{}`. -/
def wHttp429 : HTTPOracle := fun _ => { status := 429, body := JSON.obj [] }

/-- Network oracle answering every request with status 200 and body `{}`. -/
def wHttp200 : HTTPOracle := fun _ => { status := 200, body := JSON.obj [] }

/-- Network oracle answering every request with status 200 and a two-element
JSON array of objects. -/
def wHttpArr : HTTPOracle := fun _ =>
  { status := 200,
    body := JSON.arr [JSON.obj [("a", JSON.num 1)], JSON.obj []] }

/-- Network oracle answering every request with status 200 and a one-element
JSON array containing a queue object. -/
def wHttpQueueArr : HTTPOracle := fun _ =>
  { status := 200, body := JSON.arr [JSON.obj [("total_players", JSON.num 5)]] }

/-- Network oracle that fails the queue endpoint with 422 and answers every
other request with status 200 and body `{}`. -/
def wHttpQueue422 : HTTPOracle := fun req =>
  if req.url = "B/server/queue" then { status := 422, body := JSON.obj [] }
  else { status := 200, body := JSON.obj [] }

/-- Key store holding the key `"K"` for every server id. -/
def wStoreK : KeyStore := fun _ => some "K"

/-- Empty key store. -/
def wStoreNone : KeyStore := fun _ => none

/-! ## Helper lemmas -/

theorem dictGet_dictSet_self (sk : List (Int × String)) (k : Int) (v : String) :
    dictGet (dictSet sk k v) k = some v := by
  induction sk with
  | nil => simp [dictSet, dictGet]
  | cons p rest ih =>
      obtain ⟨k0, v0⟩ := p
      by_cases h : k0 = k <;> simp [dictSet, dictGet, h, ih]

theorem dictGet_dictSet_ne (sk : List (Int × String)) (k k' : Int) (v : String)
    (h : k ≠ k') : dictGet (dictSet sk k v) k' = dictGet sk k' := by
  induction sk with
  | nil => simp [dictSet, dictGet, h]
  | cons p rest ih =>
      obtain ⟨k0, v0⟩ := p
      by_cases h0 : k0 = k
      · subst h0; simp [dictSet, dictGet, h]
      · simp [dictSet, dictGet, h0, ih]

theorem fetch_server_key_preserves_entry (store : KeyStore)
    (sk : List (Int × String)) (op sid : Int) (v : String)
    (h : dictGet sk sid = some v) :
    dictGet (fetch_server_key store sk op).server_keys sid = some v := by
  unfold fetch_server_key
  cases hop : dictGet sk op with
  | some k => simpa using h
  | none =>
      cases hsop : store op with
      | none => simpa using h
      | some key =>
          have hne : op ≠ sid := by
            rintro rfl
            rw [h] at hop
            cases hop
          simpa [dictGet_dictSet_ne _ _ _ _ hne] using h

theorem fetch_server_key_preserves_absent (store : KeyStore)
    (sk : List (Int × String)) (op sid : Int)
    (hne : op ≠ sid) (h : dictGet sk sid = none) :
    dictGet (fetch_server_key store sk op).server_keys sid = none := by
  unfold fetch_server_key
  cases hop : dictGet sk op with
  | some k => simpa using h
  | none =>
      cases hsop : store op with
      | none => simpa using h
      | some key => simpa [dictGet_dictSet_ne _ _ _ _ hne] using h

theorem lookupCount_zero_of_cached (store : KeyStore) (ops : List Int) :
    ∀ (sk : List (Int × String)) (sid : Int) (v : String),
      dictGet sk sid = some v → lookupCount store sk ops sid = 0 := by
  induction ops with
  | nil => intro sk sid v _; rfl
  | cons op rest ih =>
      intro sk sid v h
      have hpres := fetch_server_key_preserves_entry store sk op sid v h
      by_cases hop : op = sid
      · subst hop
        have hzero : (fetch_server_key store sk op).externalLookups = 0 := by
          unfold fetch_server_key
          rw [h]
        simp [lookupCount, hzero, ih _ _ _ hpres]
      · simp [lookupCount, hop, ih _ _ _ hpres]

theorem lookupCount_le_one_of_present (store : KeyStore) (ops : List Int) :
    ∀ (sk : List (Int × String)) (sid : Int) (k : String),
      store sid = some k → lookupCount store sk ops sid ≤ 1 := by
  induction ops with
  | nil => intro sk sid k _; simp [lookupCount]
  | cons op rest ih =>
      intro sk sid k hk
      by_cases hop : op = sid
      · subst hop
        cases hc : dictGet sk op with
        | some v =>
            have hzero : (fetch_server_key store sk op).externalLookups = 0 := by
              unfold fetch_server_key; rw [hc]
            have hrest := lookupCount_zero_of_cached store rest
              (fetch_server_key store sk op).server_keys op v
              (fetch_server_key_preserves_entry store sk op op v hc)
            simp [lookupCount, hzero, hrest]
        | none =>
            have hone : (fetch_server_key store sk op).externalLookups = 1 := by
              unfold fetch_server_key; rw [hc, hk]
            have hcached : dictGet (fetch_server_key store sk op).server_keys op = some k := by
              unfold fetch_server_key; rw [hc, hk]
              exact dictGet_dictSet_self sk op k
            have hrest := lookupCount_zero_of_cached store rest
              (fetch_server_key store sk op).server_keys op k hcached
            simp [lookupCount, hone, hrest]
      · simpa [lookupCount, hop] using ih (fetch_server_key store sk op).server_keys sid k hk

theorem lookupCount_count_of_absent (store : KeyStore) (ops : List Int) :
    ∀ (sk : List (Int × String)) (sid : Int),
      store sid = none → dictGet sk sid = none →
      lookupCount store sk ops sid = ops.count sid := by
  induction ops with
  | nil => intro sk sid _ _; rfl
  | cons op rest ih =>
      intro sk sid hs hc
      by_cases hop : op = sid
      · subst hop
        have hone : (fetch_server_key store sk op).externalLookups = 1 := by
          unfold fetch_server_key; rw [hc, hs]
        have hunch : (fetch_server_key store sk op).server_keys = sk := by
          unfold fetch_server_key; rw [hc, hs]
        simp [lookupCount, hone, hunch, ih sk op hs hc, List.count_cons,
          Nat.add_comm]
      · have habs := fetch_server_key_preserves_absent store sk op sid hop hc
        have hcnt : (op :: rest).count sid = rest.count sid := by
          simp [List.count_cons, hop]
        simp [lookupCount, hop,
          ih (fetch_server_key store sk op).server_keys sid hs habs, hcnt]

theorem runResolveOps_preserves_entry (store : KeyStore) (ops : List Int) :
    ∀ (sk : List (Int × String)) (sid : Int) (v : String),
      dictGet sk sid = some v →
      dictGet (runResolveOps store sk ops) sid = some v := by
  induction ops with
  | nil => intro sk sid v h; exact h
  | cons op rest ih =>
      intro sk sid v h
      exact ih _ _ _ (fetch_server_key_preserves_entry store sk op sid v h)

theorem setattr1_not_mem (l : List (String × JSON)) (k : String) (v : JSON)
    (h : k ∉ l.map Prod.fst) : setattr1 l k v = l ++ [(k, v)] := by
  induction l with
  | nil => rfl
  | cons p rest ih =>
      obtain ⟨k0, v0⟩ := p
      simp only [List.map_cons, List.mem_cons, not_or] at h
      have hne : k0 ≠ k := fun hk => h.1 hk.symm
      simp [setattr1, hne, ih h.2]

theorem lookupStr_setattr1_ne (l : List (String × JSON)) (k' : String) (v : JSON)
    (k : String) (h : k' ≠ k) :
    lookupStr (setattr1 l k' v) k = lookupStr l k := by
  induction l with
  | nil => simp [setattr1, lookupStr, h]
  | cons p rest ih =>
      obtain ⟨k0, v0⟩ := p
      by_cases h0 : k0 = k'
      · subst h0; simp [setattr1, lookupStr, h]
      · simp [setattr1, lookupStr, h0, ih]

theorem lookupStr_setattrs_not_mem (fs : List (String × JSON)) :
    ∀ (acc : List (String × JSON)) (k : String), k ∉ fs.map Prod.fst →
      lookupStr (setattrs acc fs) k = lookupStr acc k := by
  induction fs with
  | nil => intro acc k _; rfl
  | cons p rest ih =>
      intro acc k h
      obtain ⟨k0, v0⟩ := p
      simp only [List.map_cons, List.mem_cons, not_or] at h
      have step : setattrs acc ((k0, v0) :: rest) = setattrs (setattr1 acc k0 v0) rest := rfl
      rw [step, ih _ _ h.2, lookupStr_setattr1_ne _ _ _ _ (fun hk : k0 = k => h.1 hk.symm)]

theorem setattrs_of_nodup (fs : List (String × JSON)) :
    ∀ (acc : List (String × JSON)), (fs.map Prod.fst).Nodup →
      (∀ a ∈ fs.map Prod.fst, a ∉ acc.map Prod.fst) →
      setattrs acc fs = acc ++ fs := by
  induction fs with
  | nil => intro acc _ _; simp [setattrs]
  | cons p rest ih =>
      intro acc hnd hdisj
      obtain ⟨k, v⟩ := p
      simp only [List.map_cons, List.nodup_cons] at hnd
      have hk : k ∉ acc.map Prod.fst := hdisj k (by simp)
      have step : setattrs acc ((k, v) :: rest) = setattrs (setattr1 acc k v) rest := rfl
      rw [step, setattr1_not_mem _ _ _ hk, ih _ hnd.2 ?_]
      · simp
      · intro a ha
        simp only [List.map_append, List.map_cons, List.map_nil, List.mem_append,
          List.mem_singleton, not_or]
        refine ⟨hdisj a (by simp [ha]), ?_⟩
        rintro rfl
        exact hnd.1 ha

theorem setattrs_nil_of_nodup (fs : List (String × JSON))
    (hnd : (fs.map Prod.fst).Nodup) : setattrs [] fs = fs := by
  simpa using setattrs_of_nodup fs [] hnd (by simp)

theorem lookupStr_eq_some_of_mem (fs : List (String × JSON)) (k : String) (v : JSON)
    (hnd : (fs.map Prod.fst).Nodup) (hmem : (k, v) ∈ fs) :
    lookupStr fs k = some v := by
  induction fs with
  | nil => cases hmem
  | cons p rest ih =>
      obtain ⟨k0, v0⟩ := p
      simp only [List.map_cons, List.nodup_cons] at hnd
      rcases List.mem_cons.mp hmem with heq | htail
      · obtain ⟨rfl, rfl⟩ := Prod.mk.injEq .. ▸ heq
        · simp [lookupStr]
      · have hne : k0 ≠ k := by
          rintro rfl
          exact hnd.1 (List.mem_map_of_mem Prod.fst htail)
        simp [lookupStr, hne, ih hnd.2 htail]

theorem lookupStr_eq_none_of_not_mem (fs : List (String × JSON)) (k : String)
    (h : k ∉ fs.map Prod.fst) : lookupStr fs k = none := by
  induction fs with
  | nil => rfl
  | cons p rest ih =>
      obtain ⟨k0, v0⟩ := p
      simp only [List.map_cons, List.mem_cons, not_or] at h
      have hne : k0 ≠ k := fun hk => h.1 hk.symm
      simp [lookupStr, hne, ih h.2]

theorem constructList_all_objs (cls : List (String × JSON)) (items : List JSON)
    (h : ∀ v ∈ items, v.isObj = true) :
    constructList cls items =
      Except.ok (items.map fun v => BaseModel.init cls v.objFields) := by
  induction items with
  | nil => rfl
  | cons v rest ih =>
      have hv := h v (List.mem_cons_self v rest)
      have hrest := ih fun w hw => h w (List.mem_cons_of_mem _ hw)
      cases v with
      | null => simp [JSON.isObj] at hv
      | bool b => simp [JSON.isObj] at hv
      | num n => simp [JSON.isObj] at hv
      | str s => simp [JSON.isObj] at hv
      | arr xs => simp [JSON.isObj] at hv
      | obj fs => simp [constructList, construct, JSON.objFields, hrest]

theorem firstErrorIn_none (rs : List (Except PyErr Fetched)) (order : List Nat)
    (h : ∀ r ∈ rs, ∃ v, r = Except.ok v) :
    firstErrorIn rs order = none := by
  induction order with
  | nil => rfl
  | cons i rest ih =>
      cases hi : rs[i]? with
      | none => simp [firstErrorIn, hi, ih]
      | some r =>
          obtain ⟨v, rfl⟩ := h r (List.getElem?_mem hi)
          simp [firstErrorIn, hi, ih]

theorem firstErrorIn_of_unique (rs : List (Except PyErr Fetched)) (order : List Nat)
    (i : Nat) (e : PyErr)
    (hi : rs[i]? = some (Except.error e))
    (hothers : ∀ j r, rs[j]? = some r → j ≠ i → ∃ v, r = Except.ok v)
    (hmem : i ∈ order) :
    firstErrorIn rs order = some e := by
  induction order with
  | nil => cases hmem
  | cons j rest ih =>
      by_cases hji : j = i
      · subst hji; simp [firstErrorIn, hi]
      · have hmem' : i ∈ rest := by
          cases hmem with
          | head => exact absurd rfl hji
          | tail _ htl => exact htl
        cases hj : rs[j]? with
        | none => simpa [firstErrorIn, hj] using ih hmem'
        | some r =>
            obtain ⟨v, rfl⟩ := hothers j r hj hji
            simpa [firstErrorIn, hj] using ih hmem'

theorem error_map_getD (s : Nat) :
    (error_map s).getD "Unexpected Error" =
      (if s = 429 then "Rate limited"
       else if s = 400 then "Bad Request"
       else if s = 403 then "Unauthorized"
       else if s = 422 then "The private server has no players in it"
       else if s = 500 then "Problem communicating with Roblox"
       else "Unexpected Error") := by
  unfold error_map
  split_ifs <;> rfl

/-! ## Claim theorems -/

/-- Claim C1: for every dispatched request, a status-200 response makes
`_send_request` return the decoded JSON body, and any other status makes it
raise a `ResponseFailed` constructed with the decoded body, with exactly
the table's detail string (429 ↦ "Rate limited", 400 ↦ "Bad Request",
403 ↦ "Unauthorized", 422 ↦ "The private server has no players in it",
500 ↦ "Problem communicating with Roblox", any other status ↦
"Unexpected Error"), and with the response status as its code. -/
theorem dispatch_status_classification
    (http : HTTPOracle) (store : KeyStore) (base_url : String)
    (sk : List (Int × String)) (method endpoint : String)
    (sid : Int) (reqBody : Option JSON) (key : String) (s : Nat) (b : JSON)
    (hkey : (fetch_server_key store sk sid).result = Except.ok key)
    (hresp : http { method := method, url := base_url ++ "/" ++ endpoint,
                    serverKey := key, jsonBody := reqBody } =
             { status := s, body := b }) :
    (s = 200 →
      (_send_request http store base_url sk method endpoint sid reqBody).result =
        Except.ok b) ∧
    (s ≠ 200 →
      (_send_request http store base_url sk method endpoint sid reqBody).result =
        Except.error (PyErr.responseFailed
          (ResponseFailed.init b
            (some (if s = 429 then "Rate limited"
                   else if s = 400 then "Bad Request"
                   else if s = 403 then "Unauthorized"
                   else if s = 422 then "The private server has no players in it"
                   else if s = 500 then "Problem communicating with Roblox"
                   else "Unexpected Error"))
            (some s) []))) := by
  constructor
  · intro h200
    unfold _send_request
    simp only [hkey, hresp, h200]
    simp
  · intro hne
    unfold _send_request
    simp only [hkey, hresp]
    simp only [error_map_getD]
    simp [hne]

/-- Witness for C1 at a concrete 429 response. -/
theorem dispatch_status_classification_witness :
    (_send_request wHttp429 wStoreK "B" [] "GET" "server" 1 none).result =
      Except.error (PyErr.responseFailed
        (ResponseFailed.init (JSON.obj []) (some "Rate limited") (some 429) [])) := by
  have h := (dispatch_status_classification wHttp429 wStoreK "B" [] "GET" "server"
    1 none "K" 429 (JSON.obj []) rfl rfl).2 (by decide)
  simpa using h

/-- Claim C3: a server id already present in `server_keys` resolves to the
cached key with no external key-store query and no state change; and for
any id present in the store, resolving twice returns the same key both
times while performing at most one external lookup in total. -/
theorem resolve_cache_hit_single_lookup
    (store : KeyStore) (sk : List (Int × String)) (sid : Int) :
    (∀ key, dictGet sk sid = some key →
       fetch_server_key store sk sid =
         { result := Except.ok key, server_keys := sk, externalLookups := 0 }) ∧
    (∀ k, store sid = some k →
       (∃ key, (fetch_server_key store sk sid).result = Except.ok key ∧
          (fetch_server_key store
            (fetch_server_key store sk sid).server_keys sid).result =
              Except.ok key) ∧
       (fetch_server_key store sk sid).externalLookups +
         (fetch_server_key store
           (fetch_server_key store sk sid).server_keys sid).externalLookups ≤ 1) := by
  constructor
  · intro key h
    unfold fetch_server_key
    rw [h]
  · intro k hk
    cases hc : dictGet sk sid with
    | some key =>
        have h1 : fetch_server_key store sk sid =
            { result := Except.ok key, server_keys := sk, externalLookups := 0 } := by
          unfold fetch_server_key
          rw [hc]
        refine ⟨⟨key, ?_, ?_⟩, ?_⟩ <;> simp [h1]
    | none =>
        have h1 : fetch_server_key store sk sid =
            { result := Except.ok k, server_keys := dictSet sk sid k,
              externalLookups := 1 } := by
          unfold fetch_server_key
          rw [hc, hk]
        have h2 : fetch_server_key store (dictSet sk sid k) sid =
            { result := Except.ok k, server_keys := dictSet sk sid k,
              externalLookups := 0 } := by
          unfold fetch_server_key
          rw [dictGet_dictSet_self]
        refine ⟨⟨k, ?_, ?_⟩, ?_⟩ <;> simp [h1, h2]

/-- Witness for C3: a fresh id backed by the store costs at most one
external lookup over two consecutive resolves. -/
theorem resolve_cache_hit_single_lookup_witness :
    (fetch_server_key wStoreK [] 2).externalLookups +
      (fetch_server_key wStoreK
        (fetch_server_key wStoreK [] 2).server_keys 2).externalLookups ≤ 1 :=
  ((resolve_cache_hit_single_lookup wStoreK [] 2).2 "K" rfl).2

/-- Claim C6: a server id absent from both the in-memory dict and the
external store makes `fetch_server_key` raise
`ServerLinkNotFound("API Key not found")` and leaves the dict unchanged
(the miss is not cached), and `_send_request` propagates that error
unchanged while issuing no HTTP request. -/
theorem resolve_absent_no_http
    (http : HTTPOracle) (store : KeyStore) (base_url : String)
    (sk : List (Int × String)) (method endpoint : String) (sid : Int)
    (reqBody : Option JSON)
    (hc : dictGet sk sid = none) (hs : store sid = none) :
    fetch_server_key store sk sid =
      { result := Except.error (PyErr.serverLinkNotFound "API Key not found"),
        server_keys := sk, externalLookups := 1 } ∧
    _send_request http store base_url sk method endpoint sid reqBody =
      { result := Except.error (PyErr.serverLinkNotFound "API Key not found"),
        server_keys := sk, externalLookups := 1, httpCalls := [] } := by
  have h1 : fetch_server_key store sk sid =
      { result := Except.error (PyErr.serverLinkNotFound "API Key not found"),
        server_keys := sk, externalLookups := 1 } := by
    unfold fetch_server_key
    rw [hc, hs]
  refine ⟨h1, ?_⟩
  unfold _send_request
  rw [h1]

/-- Witness for C6 at a concrete unlinked server id. -/
theorem resolve_absent_no_http_witness :
    (_send_request wHttp429 wStoreNone "B" [] "GET" "server" 1 none).httpCalls = [] := by
  have h := resolve_absent_no_http wHttp429 wStoreNone "B" [] "GET" "server" 1 none rfl rfl
  rw [h.2]

/-- Counterexample to claim C7 as stated: an id absent from the external
store is looked up externally on every resolve (a failed lookup inserts
nothing into `server_keys`), so two resolves of the same id perform two
external lookups in one process lifetime, not at most one. -/
theorem key_cache_single_lookup_counterexample :
    lookupCount wStoreNone [] [1, 1] 1 = 2 ∧
      ¬ lookupCount wStoreNone [] [1, 1] 1 ≤ 1 := by
  constructor
  · rfl
  · intro h
    have : (2 : Nat) ≤ 1 := by
      have he : lookupCount wStoreNone [] [1, 1] 1 = 2 := rfl
      rw [he] at h
      exact h
    omega

/-- Claim C7 as amended: over any sequence of resolves, an id present in
the external store is looked up externally at most once per process
lifetime; an id absent from the store is looked up once per resolve
attempt; and once an entry is in `server_keys` it is never evicted or
overwritten. -/
theorem key_cache_lookup_invariant (store : KeyStore)
    (sk : List (Int × String)) (ops : List Int) (sid : Int) :
    (∀ k, store sid = some k → lookupCount store sk ops sid ≤ 1) ∧
    (store sid = none → dictGet sk sid = none →
       lookupCount store sk ops sid = ops.count sid) ∧
    (∀ v, dictGet sk sid = some v →
       dictGet (runResolveOps store sk ops) sid = some v) := by
  refine ⟨?_, ?_, ?_⟩
  · intro k hk
    exact lookupCount_le_one_of_present store ops sk sid k hk
  · intro hs hc
    exact lookupCount_count_of_absent store ops sk sid hs hc
  · intro v hv
    exact runResolveOps_preserves_entry store ops sk sid v hv

/-- Witness for the amended C7: three resolves of a store-backed id cost
at most one external lookup. -/
theorem key_cache_lookup_invariant_witness :
    lookupCount wStoreK [] [2, 2, 2] 2 ≤ 1 :=
  (key_cache_lookup_invariant wStoreK [] [2, 2, 2] 2).1 "K" rfl

/-- Claim C4 (code bug): a `ResponseFailed` raised by `_send_request`
carries none of the decoded body, the detail string and the status code as
attributes: `__init__` iterates only `**kwargs`, while the raise site
passes `detail=` and `code=` as named parameters (and `data` positionally),
so the instance attribute set stays empty and `e.data`, `e.detail` and
`e.code` all raise AttributeError. -/
theorem responseFailed_attributes_not_stored :
    (_send_request wHttp429 wStoreK "B" [] "GET" "server" 1 none).result =
      Except.error (PyErr.responseFailed
        (ResponseFailed.init (JSON.obj []) (some "Rate limited") (some 429) [])) ∧
    (ResponseFailed.init (JSON.obj []) (some "Rate limited") (some 429) []).attrs = [] ∧
    (ResponseFailed.init (JSON.obj []) (some "Rate limited") (some 429) []).getattr
      "detail" = none ∧
    (ResponseFailed.init (JSON.obj []) (some "Rate limited") (some 429) []).getattr
      "code" = none ∧
    (ResponseFailed.init (JSON.obj []) (some "Rate limited") (some 429) []).getattr
      "data" = none :=
  ⟨rfl, rfl, rfl, rfl, rfl⟩

/-- Claim C5: on a 200 response, `_fetch_data` decodes a JSON array of N
objects into exactly N typed records in array order (the i-th record is
constructed from the i-th element), and a single JSON object into exactly
one typed record. -/
theorem typed_decode_shape
    (http : HTTPOracle) (store : KeyStore) (base_url : String)
    (sk : List (Int × String)) (endpoint : String) (sid : Int)
    (cls : List (String × JSON)) (key : String) (bodyJ : JSON)
    (hkey : (fetch_server_key store sk sid).result = Except.ok key)
    (hresp : http { method := "GET", url := base_url ++ "/" ++ endpoint,
                    serverKey := key, jsonBody := none } =
             { status := 200, body := bodyJ }) :
    (∀ items, bodyJ = JSON.arr items → (∀ v ∈ items, v.isObj = true) →
       (_fetch_data http store base_url sk endpoint sid cls).result =
         Except.ok (Fetched.many
           (items.map fun v => BaseModel.init cls v.objFields)) ∧
       (items.map fun v => BaseModel.init cls v.objFields).length =
         items.length) ∧
    (∀ fields, bodyJ = JSON.obj fields →
       (_fetch_data http store base_url sk endpoint sid cls).result =
         Except.ok (Fetched.single (BaseModel.init cls fields))) := by
  have hsend : (_send_request http store base_url sk "GET" endpoint sid none).result =
      Except.ok bodyJ := by
    unfold _send_request
    simp only [hkey, hresp]
    simp
  constructor
  · rintro items rfl hobjs
    refine ⟨?_, by simp⟩
    unfold _fetch_data
    simp only [hsend, constructList_all_objs cls items hobjs]
    rfl
  · rintro fields rfl
    unfold _fetch_data
    simp only [hsend]
    rfl

/-- Witness for C5: a two-element array decodes to two records in order. -/
theorem typed_decode_shape_witness :
    (_fetch_data wHttpArr wStoreK "B" [] "server/players" 1 ServerPlayers.cls).result =
      Except.ok (Fetched.many
        [BaseModel.init ServerPlayers.cls [("a", JSON.num 1)],
         BaseModel.init ServerPlayers.cls []]) := by
  have h := ((typed_decode_shape wHttpArr wStoreK "B" [] "server/players" 1
    ServerPlayers.cls "K" (JSON.arr [JSON.obj [("a", JSON.num 1)], JSON.obj []])
    rfl rfl).1 [JSON.obj [("a", JSON.num 1)], JSON.obj []] rfl (by decide)).1
  simpa using h

/-- Counterexample to claim C8 as stated: `server/queue` expects a single
object, yet a 200 response whose body is a JSON array is not surfaced as a
decode error — `_fetch_data` checks `isinstance(data, list)` first and
happily returns a list of typed records. -/
theorem array_for_object_is_not_decode_error :
    (_fetch_server_queue wHttpQueueArr wStoreK "B" [] 1).result =
      Except.ok (Fetched.many
        [BaseModel.init ServerQueue.cls [("total_players", JSON.num 5)]]) := rfl

/-- Claim C8 as amended: typed decoding accepts unknown/extra JSON fields
(they are set as attributes rather than rejected) and never fails solely
because optional fields are missing — a field not supplied resolves to the
class-level default; and a JSON array where a single object is expected is
not a decode error: it is decoded elementwise into a list of typed
records. -/
theorem typed_decode_leniency
    (cls fs : List (String × JSON)) (k : String)
    (http : HTTPOracle) (store : KeyStore) (base_url : String)
    (sk : List (Int × String)) (sid : Int) (key : String) (items : List JSON)
    (hkey : (fetch_server_key store sk sid).result = Except.ok key)
    (hresp : http { method := "GET", url := base_url ++ "/" ++ "server/queue",
                    serverKey := key, jsonBody := none } =
             { status := 200, body := JSON.arr items })
    (hobjs : ∀ v ∈ items, v.isObj = true) :
    (∃ o, construct cls (JSON.obj fs) = Except.ok o) ∧
    (k ∉ fs.map Prod.fst →
       (BaseModel.init cls fs).getattr k = lookupStr cls k) ∧
    (_fetch_server_queue http store base_url sk sid).result =
      Except.ok (Fetched.many
        (items.map fun v => BaseModel.init ServerQueue.cls v.objFields)) := by
  have hsend : (_send_request http store base_url sk "GET" "server/queue" sid none).result =
      Except.ok (JSON.arr items) := by
    unfold _send_request
    simp only [hkey, hresp]
    simp
  refine ⟨⟨BaseModel.init cls fs, rfl⟩, ?_, ?_⟩
  · intro hk
    unfold PyObject.getattr BaseModel.init
    simp only
    rw [lookupStr_setattrs_not_mem fs [] k hk]
    rfl
  · unfold _fetch_server_queue _fetch_data
    simp only [hsend, constructList_all_objs ServerQueue.cls items hobjs]
    rfl

/-- Witness for the amended C8: a missing optional field resolves to its
class-level default. -/
theorem typed_decode_leniency_witness :
    (BaseModel.init ServerStatus.cls [("Name", JSON.str "S")]).getattr "TeamBalance" =
      some (JSON.bool false) := by
  have h := (typed_decode_leniency ServerStatus.cls [("Name", JSON.str "S")]
    "TeamBalance" wHttpQueueArr wStoreK "B" [] 1 "K"
    [JSON.obj [("total_players", JSON.num 5)]] rfl rfl (by decide)).2.1 (by decide)
  rw [h]
  rfl

/-- Claim C10: constructing a record from any decoded JSON object (whose
keys are unique, as Python dict keys are) always succeeds; every supplied
key — declared on the record type or not — becomes an attribute holding
the supplied value, and a key not supplied resolves to the class-level
lookup (the declared default, or no attribute when none is declared). -/
theorem record_construction_total (cls fs : List (String × JSON))
    (hnd : (fs.map Prod.fst).Nodup) :
    ∃ o, construct cls (JSON.obj fs) = Except.ok o ∧
      (∀ k v, (k, v) ∈ fs → o.getattr k = some v) ∧
      (∀ k, k ∉ fs.map Prod.fst → o.getattr k = lookupStr cls k) := by
  refine ⟨BaseModel.init cls fs, rfl, ?_, ?_⟩
  · intro k v hmem
    unfold PyObject.getattr BaseModel.init
    simp only
    rw [setattrs_nil_of_nodup fs hnd, lookupStr_eq_some_of_mem fs k v hnd hmem]
  · intro k hk
    unfold PyObject.getattr BaseModel.init
    simp only
    rw [lookupStr_setattrs_not_mem fs [] k hk]
    rfl

/-- Witness for C10: an undeclared extra field is stored and retrievable. -/
theorem record_construction_total_witness :
    (BaseModel.init ServerQueue.cls
      [("total_players", JSON.num 5), ("extra", JSON.str "x")]).getattr "extra" =
      some (JSON.str "x") := by
  obtain ⟨o, ho, hmem, -⟩ := record_construction_total ServerQueue.cls
    [("total_players", JSON.num 5), ("extra", JSON.str "x")] (by decide)
  have hoe : BaseModel.init ServerQueue.cls
      [("total_players", JSON.num 5), ("extra", JSON.str "x")] = o :=
    Except.ok.inj ho
  rw [hoe]
  exact hmem "extra" (JSON.str "x") (List.Mem.tail _ (List.Mem.head _))

/-- Claim C9: `_send_message_command(serverId, text)` issues exactly one
POST to `server/command` whose JSON body is the object
`{"command": ":m " + text}`, and returns the raw `_send_request` outcome —
no typed record is constructed from the response. -/
theorem send_message_command_spec
    (http : HTTPOracle) (store : KeyStore) (base_url : String)
    (sk : List (Int × String)) (sid : Int) (text : String) (key : String)
    (hkey : (fetch_server_key store sk sid).result = Except.ok key) :
    (_send_message_command http store base_url sk sid text).httpCalls =
      [{ method := "POST", url := base_url ++ "/" ++ "server/command",
         serverKey := key,
         jsonBody := some (JSON.obj [("command", JSON.str (":m " ++ text))]) }] ∧
    (_send_message_command http store base_url sk sid text).result =
      (_send_request http store base_url sk "POST" "server/command" sid
        (some (JSON.obj [("command", JSON.str (":m " ++ text))]))).result := by
  constructor
  · unfold _send_message_command _send_request
    simp only [hkey]
    split <;> rfl
  · rfl

/-- Witness for C9 at the spec's example input. -/
theorem send_message_command_spec_witness :
    (_send_message_command wHttp200 wStoreK "B" [] 1 "hello").httpCalls =
      [{ method := "POST", url := "B/server/command", serverKey := "K",
         jsonBody := some (JSON.obj [("command", JSON.str ":m hello")]) }] := by
  have h := (send_message_command_spec wHttp200 wStoreK "B" [] 1 "hello" "K" rfl).1
  exact h

/-- Claim C2: `fetch_all_server_data` issues the four sub-fetches (status,
players, join logs, queue) and, for every completion order that covers all
four tasks, (a) when all four succeed it returns the composite with the
four named slots filled in argument order — the same assembly regardless
of completion order — and (b) when exactly one sub-fetch fails the
aggregate fails with that sub-fetch's error, regardless of the order; in
particular a queue failure (e.g. the 422 `ResponseFailed`) is surfaced
unchanged while the other three succeed. -/
theorem fetch_all_fail_fast_composite
    (http : HTTPOracle) (store : KeyStore) (base_url : String)
    (sk : List (Int × String)) (sid : Int) (order : List Nat)
    (hcomplete : ∀ i, i < 4 → i ∈ order) :
    (∀ a b c d,
       (_fetch_server_status http store base_url sk sid).result = Except.ok a →
       (_fetch_server_players http store base_url sk sid).result = Except.ok b →
       (_fetch_server_join_logs http store base_url sk sid).result = Except.ok c →
       (_fetch_server_queue http store base_url sk sid).result = Except.ok d →
       fetch_all_server_data http store base_url sk sid order =
         Except.ok { status := a, players := b, join_logs := c, queue := d }) ∧
    (∀ i e, i < 4 →
       [(_fetch_server_status http store base_url sk sid).result,
        (_fetch_server_players http store base_url sk sid).result,
        (_fetch_server_join_logs http store base_url sk sid).result,
        (_fetch_server_queue http store base_url sk sid).result][i]? =
          some (Except.error e) →
       (∀ j, j < 4 → j ≠ i →
          ∃ v, [(_fetch_server_status http store base_url sk sid).result,
                (_fetch_server_players http store base_url sk sid).result,
                (_fetch_server_join_logs http store base_url sk sid).result,
                (_fetch_server_queue http store base_url sk sid).result][j]? =
                  some (Except.ok v)) →
       fetch_all_server_data http store base_url sk sid order = Except.error e) := by
  constructor
  · intro a b c d h0 h1 h2 h3
    have hnone : firstErrorIn
        [Except.ok a, Except.ok b, Except.ok c, Except.ok d] order = none := by
      refine firstErrorIn_none _ order ?_
      intro r hr
      simp only [List.mem_cons, List.not_mem_nil, or_false] at hr
      rcases hr with rfl | rfl | rfl | rfl
      · exact ⟨a, rfl⟩
      · exact ⟨b, rfl⟩
      · exact ⟨c, rfl⟩
      · exact ⟨d, rfl⟩
    unfold fetch_all_server_data
    simp only [hnone, h0, h1, h2, h3]
  · intro i e hlt hi hothers
    have hrest : ∀ j r,
        [(_fetch_server_status http store base_url sk sid).result,
         (_fetch_server_players http store base_url sk sid).result,
         (_fetch_server_join_logs http store base_url sk sid).result,
         (_fetch_server_queue http store base_url sk sid).result][j]? = some r →
        j ≠ i → ∃ v, r = Except.ok v := by
      intro j r hj hji
      have hjlt : j < 4 := by
        by_contra hge
        rw [List.getElem?_eq_none (by simpa using Nat.not_lt.mp hge)] at hj
        cases hj
      obtain ⟨v, hv⟩ := hothers j hjlt hji
      rw [hj] at hv
      exact ⟨v, Option.some.inj hv⟩
    have herr := firstErrorIn_of_unique
      [(_fetch_server_status http store base_url sk sid).result,
       (_fetch_server_players http store base_url sk sid).result,
       (_fetch_server_join_logs http store base_url sk sid).result,
       (_fetch_server_queue http store base_url sk sid).result] order i e hi hrest
      (hcomplete i hlt)
    unfold fetch_all_server_data
    simp only [herr]

/-- Witness for C2: with the queue endpoint answering 422 and the other
three endpoints succeeding, the aggregate fails with the queue's
`ResponseFailed` (detail "The private server has no players in it",
code 422). -/
theorem fetch_all_fail_fast_composite_witness :
    fetch_all_server_data wHttpQueue422 wStoreK "B" [] 1 [0, 1, 2, 3] =
      Except.error (PyErr.responseFailed (ResponseFailed.init (JSON.obj [])
        (some "The private server has no players in it") (some 422) [])) := by
  refine (fetch_all_fail_fast_composite wHttpQueue422 wStoreK "B" [] 1 [0, 1, 2, 3]
    ?_).2 3 (PyErr.responseFailed (ResponseFailed.init (JSON.obj [])
      (some "The private server has no players in it") (some 422) []))
    (by omega) rfl ?_
  · intro i hi
    interval_cases i <;> simp
  · intro j hj hji
    interval_cases j
    · exact ⟨Fetched.single (BaseModel.init ServerStatus.cls []), rfl⟩
    · exact ⟨Fetched.single (BaseModel.init ServerPlayers.cls []), rfl⟩
    · exact ⟨Fetched.single (BaseModel.init ServerJoinLogs.cls []), rfl⟩
    · exact absurd rfl hji
